import Mathlib


/-!
Verification development for the Hono-Openapi core package
(schema inference, schema algebra, reference store and response sampler).

The JavaScript/TypeScript sources are embedded shallowly:
* plain JSON values (the data observed on the wire, and the JSON-visible
  projection of TypeBox schema objects) become the inductive `JsonVal`;
* TypeBox schema objects become the inductive `TSchema`; the TypeBox
  `Optional` symbol marker becomes the wrapper constructor
  `TSchema.optional`, and the JSON projection (what `Object.keys` and
  `JSON.stringify` see - symbols are invisible there) is `jsonOfSchema`;
* JavaScript numbers are modelled as rationals (no NaN arises in any of
  the embedded flows);
* functions that can throw return `Except`;
* the mutable document is threaded as explicit state
  (association lists model the insertion-ordered JavaScript objects).

Recursive functions over `JsonVal` and `TSchema` are written with an
explicit fuel argument (recursion is structural on the fuel, list traversal
goes through `List.all`, `List.map`, ...); each public wrapper passes the
constant `jsRecursionLimit` as fuel.  Every fuel unit spent corresponds to
one level of recursion of the JavaScript source function, and a JavaScript
engine aborts these same recursions with a stack-overflow error at a depth
far below this constant, so the fuel-exhausted branches model inputs on
which the original program itself cannot run.  No theorem below depends on
the value of the constant: general theorems take the outcomes of these
computations as hypotheses, and the concrete inputs of witnesses and
counterexamples are shallow.
-/


/-- Recursion-depth budget for the fuelled functions; far beyond the stack
depth at which a JavaScript engine aborts the corresponding source
recursion. -/
def jsRecursionLimit : Nat := 1000000


/-- A JSON value, as produced by the JavaScript JSON.parse. -/
inductive JsonVal where
  | null
  | bool (b : Bool)
  | num (q : ℚ)
  | str (s : String)
  | arr (elems : List JsonVal)
  | obj (fields : List (String × JsonVal))


/-- Property lookup on a JavaScript object (`o[k]`); `none` models `undefined`.
First occurrence wins; genuine JavaScript objects never hold duplicate keys. -/
def alookup {α β : Type} [DecidableEq α] (k : α) : List (α × β) → Option β
  | [] => none
  | (k1, v) :: rest => if k1 = k then some v else alookup k rest


/-- Property assignment on a JavaScript object (`o[k] = v`): replaces the
binding in place when the key exists, appends it otherwise. -/
def alistSet {α β : Type} [DecidableEq α] (k : α) (v : β) : List (α × β) → List (α × β)
  | [] => [(k, v)]
  | (k1, v1) :: rest => if k1 = k then (k, v) :: rest else (k1, v1) :: alistSet k v rest


/-- Structural equality of JSON values (fuelled; the wrapper `beqJson`
always supplies enough fuel). -/
def beqJsonFuel : Nat → JsonVal → JsonVal → Bool
  | 0, _, _ => false
  | fuel + 1, a, b =>
    match a, b with
    | .null, .null => true
    | .bool x, .bool y => x == y
    | .num x, .num y => x == y
    | .str x, .str y => x == y
    | .arr xs, .arr ys =>
        xs.length == ys.length
          && (xs.zip ys).all (fun p => beqJsonFuel fuel p.1 p.2)
    | .obj fs, .obj gs =>
        fs.length == gs.length
          && (fs.zip gs).all (fun p => p.1.1 == p.2.1 && beqJsonFuel fuel p.1.2 p.2.2)
    | _, _ => false


/-- Structural equality of JSON values. -/
def beqJson (a b : JsonVal) : Bool := beqJsonFuel jsRecursionLimit a b


/-- `isDeepEqual` from `packages/core/src/types.ts` (fuelled): deep comparison
of two JavaScript values that skips object properties listed in
`propsToIgnore` at every level.  The source first tests `obj1 === obj2`; on
primitives that is value equality and on objects reference equality, and
since reference-equal objects are also structurally equal, the structural
shortcut `beqJson` below preserves the observable behaviour.  The `NaN`
self-inequality clause of the source is constantly false here because
rationals have no NaN.  As in the source, a primitive compared against an
object falls through to the key comparison, where the primitive contributes
no keys (`Object.keys` of a primitive). -/
def isDeepEqualFuel (propsToIgnore : List String) : Nat → JsonVal → JsonVal → Bool
  | 0, _, _ => false
  | fuel + 1, obj1, obj2 =>
    if beqJson obj1 obj2 then true
    else
      match obj1, obj2 with
      | .null, _ => false
      | _, .null => false
      | .arr xs, .arr ys =>
          xs.length == ys.length
            && (xs.zip ys).all (fun p => isDeepEqualFuel propsToIgnore fuel p.1 p.2)
      | .arr _, _ => false
      | _, .arr _ => false
      | .obj fs, .obj gs =>
          let keys1 := (fs.map Prod.fst).filter (fun k => !(propsToIgnore.contains k))
          let keys2 := (gs.map Prod.fst).filter (fun k => !(propsToIgnore.contains k))
          keys1.length == keys2.length && keys1.all (fun k => keys2.contains k)
            && fs.all (fun kv =>
                 propsToIgnore.contains kv.1
                   || (match alookup kv.1 gs with
                       | some w => isDeepEqualFuel propsToIgnore fuel kv.2 w
                       | none => false))
      | .obj fs, _ =>
          ((fs.map Prod.fst).filter (fun k => !(propsToIgnore.contains k))).isEmpty
      | _, .obj gs =>
          ((gs.map Prod.fst).filter (fun k => !(propsToIgnore.contains k))).isEmpty
      | _, _ => false


/-- `isDeepEqual(obj1, obj2, propsToIgnore)` from `packages/core/src/types.ts`. -/
def isDeepEqual (propsToIgnore : List String) (obj1 obj2 : JsonVal) : Bool :=
  isDeepEqualFuel propsToIgnore jsRecursionLimit obj1 obj2


/-!
## The Type Model: TypeBox schema objects

`TSchema` captures the TypeBox schema objects that the embedded code
constructs and inspects.  Constructor fields mirror the JSON-visible

structure of the corresponding TypeBox object; the `Kind` symbol is the
constructor itself and the `Optional` symbol marker is the wrapper
`TSchema.optional`.  Annotation keys are modelled exactly as far as the
embedded flows read or write them: `example` and `examples` on the
primitive types (the inference attaches `example`, declared parameter
schemas carry `examples`), `additionalProperties` and `required` on
objects, `minItems`/`maxItems` on tuples.  Other free-form annotations
(title, description, ...) are outside the model.
-/


inductive TSchema where
  | str (ex examples : Option JsonVal)
  | num (ex examples : Option JsonVal)
  | bool (ex examples : Option JsonVal)
  | null
  | literal (value : JsonVal)
  | arr (items : Option TSchema)
  | tuple (items : List TSchema) (minItems maxItems : Nat)
  | obj (properties : List (String × TSchema)) (required : List String)
        (additionalProperties : Option Bool)
  | union (anyOf : List TSchema)
  | oneOf (members : List TSchema)
  | intersect (allOf : List TSchema)
  | notSchema (inner : TSchema)
  | unknown
  | optional (inner : TSchema)


/-- The JavaScript `typeof` of a JSON value (`typeof null` is "object"). -/
def typeofJs : JsonVal → String
  | .null => "object"
  | .bool _ => "boolean"
  | .num _ => "number"
  | .str _ => "string"
  | .arr _ => "object"
  | .obj _ => "object"


/-- The `type` property of the TypeBox schema object (`undefined` when the
schema carries none, e.g. a union). -/
def typeField : TSchema → Option String
  | .str _ _ => some "string"
  | .num _ _ => some "number"
  | .bool _ _ => some "boolean"
  | .null => some "null"
  | .literal v => some (typeofJs v)
  | .arr _ => some "array"
  | .tuple _ _ _ => some "array"
  | .obj _ _ _ => some "object"
  | .union _ => none
  | .oneOf _ => none
  | .intersect _ => none
  | .notSchema _ => none
  | .unknown => none
  | .optional inner => typeField inner


/-- `TypeGuard.IsOptional`: the schema carries the Optional marker. -/
def isOptionalS : TSchema → Bool
  | .optional _ => true
  | _ => false


/-- An object-or-array kind test, looking through the Optional marker just
as the symbol-based TypeBox guards do. -/
def isArrayOrObjectS : TSchema → Bool
  | .arr _ => true
  | .obj _ _ _ => true
  | .optional inner => isArrayOrObjectS inner
  | _ => false


/-- `TypeGuard.IsString / IsBoolean / IsNumber / IsNull` combined, looking
through the Optional marker. -/
def isPrimitiveS : TSchema → Bool
  | .str _ _ => true
  | .num _ _ => true
  | .bool _ _ => true
  | .null => true
  | .optional inner => isPrimitiveS inner
  | _ => false


/-- The `examples` annotation of a schema node (present in the model on the
primitive types only). -/
def schemaExamples : TSchema → Option JsonVal
  | .str _ exs => exs
  | .num _ exs => exs
  | .bool _ exs => exs
  | .optional inner => schemaExamples inner
  | _ => none


/-- The `required` array of an object schema (`[]` models an absent
`required` key; TypeBox omits the key when no property is required, and an
absent array behaves exactly like an empty one in every embedded read). -/
def requiredListOfSchema : TSchema → List String
  | .obj _ req _ => req
  | .optional inner => requiredListOfSchema inner
  | _ => []


def optEntry (k : String) : Option JsonVal → List (String × JsonVal)
  | some j => [(k, j)]
  | none => []


/-- The JSON-visible projection of a TypeBox schema object: exactly the
enumerable string-keyed properties that `Object.keys` / `JSON.stringify`
see (symbols - the Kind and Optional markers - are invisible).  This is the
value on which `isDeepEqual` operates when the source compares two schema
objects, and the shape that is stored into the document by
`Type.Strict` (a JSON round trip). -/
def jsonOfSchemaFuel : Nat → TSchema → JsonVal
  | 0, _ => .null
  | fuel + 1, s =>
    match s with
    | .str ex exs =>
        .obj ([("type", .str "string")] ++ optEntry "example" ex ++ optEntry "examples" exs)
    | .num ex exs =>
        .obj ([("type", .str "number")] ++ optEntry "example" ex ++ optEntry "examples" exs)
    | .bool ex exs =>
        .obj ([("type", .str "boolean")] ++ optEntry "example" ex ++ optEntry "examples" exs)
    | .null => .obj [("type", .str "null")]
    | .literal v => .obj [("type", .str (typeofJs v)), ("const", v)]
    | .arr (some it) => .obj [("type", .str "array"), ("items", jsonOfSchemaFuel fuel it)]
    | .arr none => .obj [("type", .str "array")]
    | .tuple its mn mx =>
        .obj [("type", .str "array"),
              ("items", .arr (its.map (jsonOfSchemaFuel fuel))),
              ("additionalItems", .bool false),
              ("minItems", .num mn), ("maxItems", .num mx)]
    | .obj props req addl =>
        .obj ([("type", .str "object"),
               ("properties", .obj (props.map (fun kv => (kv.1, jsonOfSchemaFuel fuel kv.2))))]
          ++ (if req.isEmpty then [] else [("required", .arr (req.map JsonVal.str))])
          ++ (match addl with
              | some b => [("additionalProperties", .bool b)]
              | none => []))
    | .union l => .obj [("anyOf", .arr (l.map (jsonOfSchemaFuel fuel)))]
    | .oneOf l => .obj [("oneOf", .arr (l.map (jsonOfSchemaFuel fuel)))]
    | .intersect l => .obj [("allOf", .arr (l.map (jsonOfSchemaFuel fuel)))]
    | .notSchema inner => .obj [("not", jsonOfSchemaFuel fuel inner)]
    | .unknown => .obj []
    | .optional inner => jsonOfSchemaFuel fuel inner


def jsonOfSchema (s : TSchema) : JsonVal := jsonOfSchemaFuel jsRecursionLimit s


/-- `Type.Strict` from TypeBox: a JSON round trip of the schema object.
All modelled fields are JSON-visible except the Optional symbol markers,
so the round trip strips the markers and keeps everything else. -/
def tstrictFuel : Nat → TSchema → TSchema
  | 0, s => s
  | fuel + 1, s =>
    match s with
    | .optional inner => tstrictFuel fuel inner
    | .arr (some it) => .arr (some (tstrictFuel fuel it))
    | .arr none => .arr none
    | .tuple its mn mx => .tuple (its.map (tstrictFuel fuel)) mn mx
    | .obj props req addl =>
        .obj (props.map (fun kv => (kv.1, tstrictFuel fuel kv.2))) req addl
    | .union l => .union (l.map (tstrictFuel fuel))
    | .oneOf l => .oneOf (l.map (tstrictFuel fuel))
    | .intersect l => .intersect (l.map (tstrictFuel fuel))
    | .notSchema inner => .notSchema (tstrictFuel fuel inner)
    | prim => prim


def tstrict (s : TSchema) : TSchema := tstrictFuel jsRecursionLimit s


/-- `Value.Check` from TypeBox for the modelled schema shapes: required
properties are driven by the object's `required` array, `additionalProperties
=== false` rejects unknown keys, a union accepts when some member accepts,
the registered extended oneOf accepts when exactly one member accepts, and
checking an Optional-marked schema checks its inner kind.  A tuple requires
the exact item count with positional checks. -/
def checkFuel : Nat → TSchema → JsonVal → Bool
  | 0, _, _ => false
  | fuel + 1, schema, value =>
    match schema, value with
    | .str _ _, .str _ => true
    | .str _ _, _ => false
    | .num _ _, .num _ => true
    | .num _ _, _ => false
    | .bool _ _, .bool _ => true
    | .bool _ _, _ => false
    | .null, .null => true
    | .null, _ => false
    | .literal v, w => beqJson v w
    | .arr (some it), .arr xs => xs.all (fun x => checkFuel fuel it x)
    | .arr none, .arr _ => true
    | .arr _, _ => false
    | .tuple its _ _, .arr xs =>
        its.length == xs.length && (its.zip xs).all (fun p => checkFuel fuel p.1 p.2)
    | .tuple _ _ _, _ => false
    | .obj props req addl, .obj fields =>
        props.all (fun kv =>
          match alookup kv.1 fields with
          | some v => checkFuel fuel kv.2 v
          | none => !(req.contains kv.1))
        && (match addl with
            | some false => fields.all (fun kv => (props.map Prod.fst).contains kv.1)
            | _ => true)
    | .obj _ _ _, _ => false
    | .union l, v => l.any (fun s => checkFuel fuel s v)
    | .oneOf l, v => (l.filter (fun s => checkFuel fuel s v)).length == 1
    | .intersect l, v => l.all (fun s => checkFuel fuel s v)
    | .notSchema inner, v => !(checkFuel fuel inner v)
    | .unknown, _ => true
    | .optional inner, v => checkFuel fuel inner v


/-- `Value.Check(schema, value)`. -/
def check (schema : TSchema) (value : JsonVal) : Bool :=
  checkFuel jsRecursionLimit schema value


/-!
## Structural value inference (`packages/core/src/typeboxUtils.ts`)

`jsonStringToTypeboxSchema` parses the response text with a JSON.parse
reviver that replaces every parsed value, bottom up, by a TypeBox schema.
The JSON.parse of the raw text happens outside the model (it is a JS
builtin); the function below is the reviver applied to the parsed value.
-/


def jsonStringToTypeboxSchemaFuel : Nat → JsonVal → TSchema
  | 0, _ => .null
  | fuel + 1, v =>
    match v with
    | .null => .null
    | .bool b => .bool (some (.bool b)) none
    | .num n => .num (some (.num n)) none
    | .str s => .str (some (.str s)) none
    | .arr vs =>
        let schemas := vs.map (jsonStringToTypeboxSchemaFuel fuel)
        match schemas with
        | [] => .arr none
        | s0 :: rest =>
            if rest.all (fun s => typeField s == typeField s0) then .arr (some s0)
            else .tuple schemas 0 1000
    | .obj fields =>
        let props := fields.map (fun kv => (kv.1, jsonStringToTypeboxSchemaFuel fuel kv.2))
        .obj props (props.map Prod.fst) (some false)


/-- The reviver of `jsonStringToTypeboxSchema`, applied to the value denoted
by the parsed response text.  An empty array maps to `Type.Array(value[0])`
with `value[0]` undefined, i.e. an array schema without `items`. -/
def jsonStringToTypeboxSchema (v : JsonVal) : TSchema :=
  jsonStringToTypeboxSchemaFuel jsRecursionLimit v


/-- `textStringToTypeboxSchema` from `packages/core/src/typeboxUtils.ts`. -/
def textStringToTypeboxSchema (text : String) : TSchema :=
  .str (some (.str text)) none


/-!
## The Schema Compiler (`jsonSchemaToTypebox`, from the typesystem module)

Recursive descent over a JSON-Schema-shaped value with shape detection in
the fixed source order: boolean schema, object, enum, anyOf, allOf, oneOf,
not, array, multi-type, const, primitive; anything else throws.
-/


/-- The structural keys excluded from annotations by `parseSchemaOptions`. -/
def structuralKeys : List String :=
  ["title", "type", "items", "allOf", "anyOf", "oneOf", "not", "properties",
   "required", "const", "enum"]


/-- `parseSchemaOptions`: the non-structural key/value pairs of the schema
fragment, or `none` when there are none. -/
def parseSchemaOptions (schema : JsonVal) : Option (List (String × JsonVal)) :=
  let fields := match schema with | .obj fs => fs | _ => []
  let props := fields.filter (fun kv => !(structuralKeys.contains kv.1))
  if props.length == 0 then none else some props


/-- Property access `schema[k]` on a JSON-Schema fragment. -/
def jget (schema : JsonVal) (k : String) : Option JsonVal :=
  match schema with
  | .obj fs => alookup k fs
  | _ => none


def isObjectSchemaJ (schema : JsonVal) : Bool :=
  match jget schema "type" with
  | some (.str t) => t == "object"
  | _ => false


def isEnumSchemaJ (schema : JsonVal) : Bool := (jget schema "enum").isSome


def isAnyOfSchemaJ (schema : JsonVal) : Bool := (jget schema "anyOf").isSome


def isAllOfSchemaJ (schema : JsonVal) : Bool := (jget schema "allOf").isSome


def isOneOfSchemaJ (schema : JsonVal) : Bool := (jget schema "oneOf").isSome


def isNotSchemaJ (schema : JsonVal) : Bool := (jget schema "not").isSome


def isArraySchemaJ (schema : JsonVal) : Bool :=
  (match jget schema "type" with
   | some (.str t) => t == "array"
   | _ => false)
  && (jget schema "items").isSome


def isMultipleTypesJ (schema : JsonVal) : Bool :=
  match jget schema "type" with
  | some (.arr _) => true
  | _ => false


def isConstSchemaJ (schema : JsonVal) : Bool := (jget schema "const").isSome


/-- `parsePrimitive(type, schema)`: a single primitive type name with the
schema fragment supplying annotations (`example` / `examples` are the
annotation keys carried by the model; the null type carries none). -/
def parsePrimitiveJ (t : JsonVal) (schema : JsonVal) : Except String TSchema :=
  let opts := (parseSchemaOptions schema).getD []
  let ex := alookup "example" opts
  let exs := alookup "examples" opts
  match t with
  | .str nm =>
      if nm == "number" || nm == "integer" then .ok (.num ex exs)
      else if nm == "string" then .ok (.str ex exs)
      else if nm == "boolean" then .ok (.bool ex exs)
      else if nm == "null" then .ok .null
      else .error ("Should never happen..? parseType got type: " ++ nm)
  | _ => .error "Should never happen..? parseType got type: non-string"


/-- `parseType`: a JSON-Schema enum/const member value.  Strings, numbers and
booleans become literals, null becomes the null type, a non-empty array
becomes an array of its first member's parse (an empty array makes the
source dereference `undefined` and throw), and an object becomes an object
type of the pointwise parses with every key required. -/
def parseTypeFuel : Nat → JsonVal → Except String TSchema
  | 0, _ => .error "out of fuel"
  | fuel + 1, t =>
    match t with
    | .str s => .ok (.literal (.str s))
    | .null => .ok .null
    | .num n => .ok (.literal (.num n))
    | .bool b => .ok (.literal (.bool b))
    | .arr vs =>
        match vs with
        | [] => .error "TypeError: parseType applied to the first member of an empty array"
        | v :: _ => do
            let inner ← parseTypeFuel fuel v
            .ok (.arr (some inner))
    | .obj fs => do
        let props ← fs.mapM (fun kv => do
            let s ← parseTypeFuel fuel kv.2
            pure (kv.1, s))
        .ok (.obj props (props.map Prod.fst) none)


/-- `jsonSchemaToTypebox` (fuelled): shape detection in source order. -/
def jsonSchemaToTypeboxFuel : Nat → JsonVal → Except String TSchema
  | 0, _ => .error "out of fuel"
  | fuel + 1, schema =>
    match schema with
    | .bool _ => .ok (.bool none none)
    | _ =>
      if isObjectSchemaJ schema then
        match jget schema "properties" with
        | none => .ok .unknown
        | some propsVal =>
            let propFields := match propsVal with | .obj fs => fs | _ => []
            let requiredProps : List String :=
              match jget schema "required" with
              | some (.arr vs) =>
                  vs.filterMap (fun v => match v with | .str s => some s | _ => none)
              | _ => []
            (do
              let props ← propFields.mapM (fun kv => do
                  let s ← jsonSchemaToTypeboxFuel fuel kv.2
                  if requiredProps.contains kv.1 then pure (kv.1, s)
                  else pure (kv.1, TSchema.optional s))
              let req := props.filterMap (fun kv => if isOptionalS kv.2 then none else some kv.1)
              match parseSchemaOptions schema with
              | none => Except.ok (.obj props req (some false))
              | some opts =>
                  Except.ok (.obj props req
                    (match alookup "additionalProperties" opts with
                     | some (.bool b) => some b
                     | _ => none)))
      else if isEnumSchemaJ schema then
        match jget schema "enum" with
        | some (.arr vs) => do
            let types ← vs.mapM (parseTypeFuel fuel)
            .ok (.union types)
        | _ => .error "TypeError: enum is not an array"
      else if isAnyOfSchemaJ schema then
        match jget schema "anyOf" with
        | some (.arr vs) => do
            let members ← vs.mapM (jsonSchemaToTypeboxFuel fuel)
            .ok (.union members)
        | _ => .error "TypeError: anyOf is not an array"
      else if isAllOfSchemaJ schema then
        match jget schema "allOf" with
        | some (.arr vs) => do
            let members ← vs.mapM (jsonSchemaToTypeboxFuel fuel)
            .ok (.intersect members)
        | _ => .error "TypeError: allOf is not an array"
      else if isOneOfSchemaJ schema then
        match jget schema "oneOf" with
        | some (.arr vs) => do
            let members ← vs.mapM (jsonSchemaToTypeboxFuel fuel)
            .ok (.oneOf members)
        | _ => .error "TypeError: oneOf is not an array"
      else if isNotSchemaJ schema then
        match jget schema "not" with
        | some inner => do
            let s ← jsonSchemaToTypeboxFuel fuel inner
            .ok (.notSchema s)
        | none => .error "unreachable: guard established the key"
      else if isArraySchemaJ schema then
        match jget schema "items" with
        | some (.arr itemsList) => do
            let members ← itemsList.mapM (jsonSchemaToTypeboxFuel fuel)
            .ok (.arr (some (.union members)))
        | some itemsSchema => do
            let s ← jsonSchemaToTypeboxFuel fuel itemsSchema
            .ok (.arr (some s))
        | none => .error "unreachable: guard established the key"
      else if isMultipleTypesJ schema then
        match jget schema "type" with
        | some (.arr typeNames) => do
            let members ← typeNames.mapM (fun t => parsePrimitiveJ t (JsonVal.obj []))
            .ok (.union members)
        | _ => .error "unreachable: guard established the shape"
      else if isConstSchemaJ schema then
        match jget schema "const" with
        | some (.arr vs) => do
            let members ← vs.mapM (parseTypeFuel fuel)
            .ok (.union members)
        | some (.obj _) => .error "Const object not yet supported"
        | some .null => .error "Const object not yet supported"
        | some v => .ok (.literal v)
        | none => .error "unreachable: guard established the key"
      else
        match jget schema "type" with
        | some t => parsePrimitiveJ t schema
        | none => .error "Unsupported schema. Did not match any type of the parsers."


/-- `jsonSchemaToTypebox` from the typesystem module. -/
def jsonSchemaToTypebox (schema : JsonVal) : Except String TSchema :=
  jsonSchemaToTypeboxFuel jsRecursionLimit schema


/-!
## The Schema Algebra (typesystem module, in `test/validation.test.ts`)
-/


/-- `Array.from` of the `Set` built by inserting the elements of `l` in
order: first occurrences, in insertion order. -/
def setFrom (l : List String) : List String :=
  l.foldl (fun acc s => if acc.contains s then acc else acc ++ [s]) []


/-- The property table of `Type.Composite([x, y])` from TypeBox: keys of `x`
first (a key shared with `y` maps to the intersection of the two property
schemas), then the keys only in `y`. -/
def compositeProperties (px py : List (String × TSchema)) : List (String × TSchema) :=
  px.map (fun kv =>
    match alookup kv.1 py with
    | some s2 => (kv.1, TSchema.intersect [kv.2, s2])
    | none => kv)
  ++ py.filter (fun kv => (alookup kv.1 px).isNone)


/-- Model of `Type.Composite([x, y], options)` with no options passed (as in
`mergeObjectSchemas`): an evaluated object type over the key-resolved
properties; on non-object operands no keys resolve and the result is the
empty object type. -/
def typeComposite (x y : TSchema) : TSchema :=
  match x, y with
  | .obj px _ _, .obj py _ _ =>
      let props := compositeProperties px py
      .obj props (props.filterMap (fun kv => if isOptionalS kv.2 then none else some kv.1)) none
  | _, _ => .obj [] [] none


/-- `mergeObjectSchemas([x, y])` from the typesystem module: composite of the
two operands whose `required` array is then overwritten with the set of
names required on both sides (built in the iteration order of `x.required`,
deduplicated). -/
def mergeObjectSchemas (x y : TSchema) : TSchema :=
  let existsInBoth := setFrom ((requiredListOfSchema x).filter
    (fun s => (requiredListOfSchema y).contains s))
  match typeComposite x y with
  | .obj props _ addl => .obj props existsInBoth addl
  | other => other


/-- The string interpolated into the unsupported-type error message:
`v.type`, or "undefined" when the schema carries no `type` key. -/
def typeNameOf (s : TSchema) : String :=
  match typeField s with
  | some t => t
  | none => "undefined"


/-- `buildObjectOptions` restricted to the modelled object fields: the
`additionalProperties` key survives only when truthy (so an explicit
`false` is dropped by flattening). -/
def buildAddl : Option Bool → Option Bool
  | some true => some true
  | _ => none


/-- What happens to an Optional marker across one flattening step of the
marked schema: primitives and fall-through kinds are returned as the same
object (marker kept); a non-collapsed intersection is rebuilt by spreading
the original schema (marker kept); a collapse returns a member (marker
lost); arrays and objects are rebuilt without the marker. -/
def markerAfterFlatten : TSchema → TSchema → TSchema
  | .intersect _, r =>
      (match r with
       | .intersect _ => .optional r
       | _ => r)
  | .arr _, r => r
  | .obj _ _ _, r => r
  | _, r => .optional r


/-- `flattenIntersections` (fuelled) from the typesystem module.  For an
intersection: every member is first run through the per-member step that
computes a flattened version of array/object members, passes primitives
through, and throws on any other kind - but, as in the source, the computed
flattened member is discarded and the original member `v` is what is
deduplicated (by `isDeepEqual` ignoring `example`) and kept.  A resulting
single member replaces the intersection; the empty case dereferences
`undefined` in the source.  Arrays recurse into `items`; objects recurse
into every property, wrapping properties outside `required` that are not
already Optional-marked, and are rebuilt through `Type.Object` with
`buildObjectOptions` (recomputing `required` from the markers).  Everything
else falls through unchanged. -/
def flattenIntersectionsFuel : Nat → TSchema → Except String TSchema
  | 0, _ => .error "out of fuel"
  | fuel + 1, schema =>
    match schema with
    | .intersect allOf => do
        let dedup ← allOf.foldlM (fun acc v => do
            let _flattenedType ←
              (if isArrayOrObjectS v then flattenIntersectionsFuel fuel v
               else if isPrimitiveS v then Except.ok v
               else Except.error
                 ("Type " ++ typeNameOf v ++ " Not yet supported by flattening operation"))
            let similarExists :=
              acc.any (fun s => isDeepEqual ["example"] (jsonOfSchema s) (jsonOfSchema v))
            pure (if similarExists then acc else acc ++ [v]))
          ([] : List TSchema)
        if dedup.length > 1 then .ok (.intersect dedup)
        else
          match dedup with
          | [d] => .ok d
          | _ => .error "flattenIntersections of an empty intersection yields undefined"
    | .arr (some it) => do
        let children ← flattenIntersectionsFuel fuel it
        .ok (.arr (some children))
    | .arr none => .ok (.arr none)
    | .obj props required addl => do
        let flattened ← props.mapM (fun kv => do
            let needsOptional := !(required.contains kv.1) && !(isOptionalS kv.2)
            let flattenedSchema ← flattenIntersectionsFuel fuel kv.2
            if needsOptional then pure (kv.1, TSchema.optional flattenedSchema)
            else pure (kv.1, flattenedSchema))
        .ok (.obj flattened
              (flattened.filterMap (fun kv => if isOptionalS kv.2 then none else some kv.1))
              (buildAddl addl))
    | .optional inner => do
        let r ← flattenIntersectionsFuel fuel inner
        .ok (markerAfterFlatten inner r)
    | other => .ok other


/-- `flattenIntersections` from the typesystem module. -/
def flattenIntersections (schema : TSchema) : Except String TSchema :=
  flattenIntersectionsFuel jsRecursionLimit schema


/-!
## The Reference Store (`addParameterToSchema`, `addBodyTypeToSchema`)

The `open_api_ref` bookkeeping property that the source stores on the
schema node is kept out of band here (an `OpenApiRefMap` accompanying the
node), so a node is a pair of a `TSchema` and its reference map.  The
`isDeepEqual` comparisons of the source pass `open_api_ref` in
`propsToIgnore`, so keeping the map outside the compared projection is
observationally equivalent; the ignore list is still passed to mirror the
call.
-/


/-- The per-node `open_api_ref` map: one slot per usage context. -/
structure OpenApiRefMap where
  query : Option String := none
  cookie : Option String := none
  path : Option String := none
  header : Option String := none
  body : Option String := none


/-- `schema.open_api_ref?.[location]`. -/
def OpenApiRefMap.get (m : OpenApiRefMap) (location : String) : Option String :=
  if location == "query" then m.query
  else if location == "cookie" then m.cookie
  else if location == "path" then m.path
  else if location == "header" then m.header
  else if location == "body" then m.body
  else none


/-- `schema.open_api_ref[location] = ref`. -/
def OpenApiRefMap.set (m : OpenApiRefMap) (location : String) (ref : String) : OpenApiRefMap :=
  if location == "query" then { m with query := some ref }
  else if location == "cookie" then { m with cookie := some ref }
  else if location == "path" then { m with path := some ref }
  else if location == "header" then { m with header := some ref }
  else if location == "body" then { m with body := some ref }
  else m


/-- An OpenAPI `ParameterObject` as assembled by `addParameter`: the `in`
field is `location`.  The source literal always carries both the `example`
and `examples` keys, one of them set to `undefined`; a key holding
`undefined` compares under `isDeepEqual` exactly like an absent key (both
construction sites use the same shape), so the model stores options. -/
structure Param where
  location : String
  name : String
  schema : TSchema
  required : Bool
  exampleOpt : Option JsonVal := none
  examples : Option JsonVal := none


/-- The JSON-visible projection of a `ParameterObject`. -/
def jsonOfParam (p : Param) : JsonVal :=
  .obj ([("in", .str p.location), ("name", .str p.name),
         ("schema", jsonOfSchema p.schema), ("required", .bool p.required)]
    ++ optEntry "examples" p.examples ++ optEntry "example" p.exampleOpt)


/-- `isDeepEqual(parameter, parameters[curName], ['open_api_ref'])`. -/
def paramDeepEqual (p stored : Param) : Bool :=
  isDeepEqual ["open_api_ref"] (jsonOfParam p) (jsonOfParam stored)


inductive ProbeResult where
  | found (ref : String)
  | fresh (nm : String)
  | exhausted


/-- The candidate-name probing loop of `addParameterToSchema`
(`for (let i = 0; i < 2000; i++)`), with the remaining iteration budget as
the structural argument: at each candidate, an existing structurally equal
parameter is reused, a colliding different one advances the candidate to
`name_location` suffixed with the loop index, and a free candidate is
fresh; an exhausted budget leaves `name` null. -/
def probeLoop (p : Param) (parameters : List (String × Param)) :
    Nat → String → Nat → ProbeResult
  | 0, _, _ => .exhausted
  | remaining + 1, curName, i =>
      match alookup curName parameters with
      | some existing =>
          if paramDeepEqual p existing then .found ("#/components/parameters/" ++ curName)
          else probeLoop p parameters remaining (p.name ++ "_" ++ p.location ++ toString i) (i + 1)
      | none => .fresh curName


/-- `addParameterToSchema(parameter, schema)` from `packages/core/src/index.ts`:
fast path through the node's reference map, then the probing loop; a fresh
name stores the parameter with its schema stripped (`Type.Strict`, the
`open_api_ref` deleted) and writes the reference back onto the node's map;
2000 failed probes throw. -/
def addParameterToSchema (p : Param) (refMap : OpenApiRefMap)
    (parameters : List (String × Param)) :
    Except String (String × List (String × Param) × OpenApiRefMap) :=
  match refMap.get p.location with
  | some r => .ok (r, parameters, refMap)
  | none =>
    match probeLoop p parameters 2000 (p.name ++ "_" ++ p.location) 0 with
    | .found r => .ok (r, parameters, refMap)
    | .fresh nm =>
        let parameterCopy := { p with schema := tstrict p.schema }
        .ok ("#/components/parameters/" ++ nm,
             alistSet nm parameterCopy parameters,
             refMap.set p.location ("#/components/parameters/" ++ nm))
    | .exhausted =>
        .error "Should never happen. 2000 Parameters with same name and no duplicate registered?"


/-- `addBodyTypeToSchema(name, schema)` from `packages/core/src/index.ts`:
fast path through the node's reference map; otherwise the stripped schema
is stored (overwriting any entry under the same name) and the reference is
written onto the node's map.  The string written into the map reproduces
the source exactly: it says `#/components/schema/` (no trailing `s`) while
the returned reference says `#/components/schemas/`. -/
def addBodyTypeToSchema (nm : String) (schema : TSchema) (refMap : OpenApiRefMap)
    (schemas : List (String × TSchema)) :
    String × List (String × TSchema) × OpenApiRefMap :=
  match refMap.body with
  | some r => (r, schemas, refMap)
  | none =>
      ("#/components/schemas/" ++ nm,
       alistSet nm (tstrict schema) schemas,
       { refMap with body := some ("#/components/schema/" ++ nm) })


/-!
## Inline path-parameter inference (`addOrAugmentOpenApiRoute`)
-/


/-- A `\w` character: ASCII letters, digits and underscore. -/
def isWordChar (c : Char) : Bool := c.isAlphanum || c == '_'


/-- Global matching of the regex `\/:\w*` over the character list, returning
for each match the text after the leading `/:` (the `p.substring(2)` of the
source); scanning resumes after each match. -/
def pathParamScan : Nat → List Char → List String
  | 0, _ => []
  | _, [] => []
  | fuel + 1, '/' :: ':' :: rest =>
      String.mk (rest.takeWhile isWordChar) :: pathParamScan fuel (rest.dropWhile isWordChar)
  | fuel + 1, _ :: rest => pathParamScan fuel rest


/-- `path.match(/\/:\w*/g)` mapped through `p.substring(2)`. -/
def pathParamMatches (path : String) : List String :=
  pathParamScan path.length path.data


/-- An entry of an operation's `parameters` array: either a `$ref` into
`components.parameters` or an inline `ParameterObject`. -/
inductive ParameterEntry where
  | refEntry (ref : String)
  | inlineParam (p : Param)


/-- An inline inferred path parameter: `in: path`, `schema: Type.String()`,
`required: true` (the source object literal carries no example keys). -/
def inferredPathParameters (path : String) : List Param :=
  (pathParamMatches path).map (fun n =>
    { location := "path", name := n, schema := .str none none, required := true })


/-- A declared `TObject` validation schema as consumed by `addParameter`:
its properties (each property schema node paired with that node's reference
map) and its `required` array. -/
structure ObjectSchemaNode where
  properties : List (String × TSchema × OpenApiRefMap)
  required : List String


/-- The per-property loop of `addParameter`: builds a `ParameterObject` for
every property (array-valued `examples` annotations go to `examples`,
anything else to `example`), registers it through `addParameterToSchema`,
and pushes a `$ref` entry; the updated reference map of each property node
is not consumed again within one registration. -/
def addParameterProps (location : String) (required : List String) :
    List (String × TSchema × OpenApiRefMap) → List ParameterEntry →
    List (String × Param) →
    Except String (List ParameterEntry × List (String × Param))
  | [], parameters, docParams => .ok (parameters, docParams)
  | (nm, schema, refMap) :: rest, parameters, docParams =>
      let exampleIsArray :=
        match schemaExamples schema with
        | some (.arr _) => true
        | _ => false
      let parameterObject : Param :=
        { location := location, name := nm, schema := schema,
          required := required.contains nm,
          examples := if exampleIsArray then schemaExamples schema else none,
          exampleOpt := if exampleIsArray then none else schemaExamples schema }
      match addParameterToSchema parameterObject refMap docParams with
      | .error msg => .error msg
      | .ok r =>
          addParameterProps location required rest
            (parameters ++ [.refEntry r.1]) r.2.1


/-- `addParameter(type, typeSchema)` from `addOrAugmentOpenApiRoute`: a
missing schema contributes nothing. -/
def addParameter (location : String) (node : Option ObjectSchemaNode)
    (parameters : List ParameterEntry) (docParams : List (String × Param)) :
    Except String (List ParameterEntry × List (String × Param)) :=
  match node with
  | none => .ok (parameters, docParams)
  | some defn => addParameterProps location defn.required defn.properties parameters docParams


/-- The path-parameter part of the `parameters` assembly in
`addOrAugmentOpenApiRoute` (`index.ts` lines 508-526): with a declared
`param` validation schema the parameters are registered as references via
`addParameter('path', ...)`; without one, each `/:name` segment of the
route path is appended as an inline path parameter.  `parameters` holds the
entries already pushed for query/cookie/header. -/
def operationParameters (validationParam : Option ObjectSchemaNode) (path : String)
    (parameters : List ParameterEntry) (docParams : List (String × Param)) :
    Except String (List ParameterEntry × List (String × Param)) :=
  match validationParam with
  | some node => addParameter "path" (some node) parameters docParams
  | none =>
      .ok (parameters ++ (inferredPathParameters path).map ParameterEntry.inlineParam,
           docParams)


/-!
## Sampling policy and the response-sampling handler (`snoopOnResponseHandler`)
-/


inductive SamplingMode where
  | combine
  | individual


/-- `SampleResponseOptions` from `packages/core/src/types.ts`; every field is
optional at the lookup sites (`?.` followed by `??`). -/
structure SampleResponseOptions where
  samplingMode : Option SamplingMode := none
  samplingInterval : Option ℚ := none
  samplingMaxCount : Option Nat := none


/-- `a ?? b ?? d`. -/
def firstSome {α : Type} : Option α → Option α → α → α
  | some a, _, _ => a
  | none, some b, _ => b
  | none, none, d => d


/-- `handlerSampleOptions?.samplingInterval ?? gSampleOptions?.samplingInterval ?? 1`. -/
def effectiveSamplingInterval (handlerOpts globalOpts : Option SampleResponseOptions) : ℚ :=
  firstSome (handlerOpts.bind SampleResponseOptions.samplingInterval)
    (globalOpts.bind SampleResponseOptions.samplingInterval) 1


/-- `handlerSampleOptions?.samplingMaxCount ?? gSampleOptions?.samplingMaxCount ?? Infinity`;
`none` is the built-in `Infinity` default. -/
def effectiveSamplingMaxCount (handlerOpts globalOpts : Option SampleResponseOptions) :
    Option Nat :=
  match handlerOpts.bind SampleResponseOptions.samplingMaxCount with
  | some m => some m
  | none => globalOpts.bind SampleResponseOptions.samplingMaxCount


/-- `handlerSampleOptions?.samplingMode ?? gSampleOptions?.samplingMode ?? 'individual'`. -/
def effectiveSamplingMode (handlerOpts globalOpts : Option SampleResponseOptions) :
    SamplingMode :=
  firstSome (handlerOpts.bind SampleResponseOptions.samplingMode)
    (globalOpts.bind SampleResponseOptions.samplingMode) SamplingMode.individual


/-- `sampledCount >= maxResponsesToSample`: false against the `Infinity`
default, otherwise the numeric comparison. -/

def sampleCountReached (c : Nat) : Option Nat → Bool
  | none => false
  | some m => decide (m ≤ c)


/-- The sampling gate of `snoopOnResponseHandler`: always proceed when no
count is recorded; otherwise skip when the count has reached the effective
maximum or the drawn random value exceeds the effective interval. -/
def samplingGateSkips (handlerOpts globalOpts : Option SampleResponseOptions)
    (sampledCount : Option Nat) (randomValue : ℚ) : Bool :=
  match sampledCount with
  | none => false
  | some c =>
      sampleCountReached c (effectiveSamplingMaxCount handlerOpts globalOpts)
        || decide (effectiveSamplingInterval handlerOpts globalOpts < randomValue)


/-!
## The Document Model
-/


/-- The `schema` value of a response content cell: a `$ref` (the full
reference string) or an inline schema object. -/
inductive SchemaOrRef where
  | ref (target : String)
  | inline (s : TSchema)


/-- The schema object stored at `responses[status].content[ct].schema`,
carrying the `x-openapi-sample-count` vendor extension. -/
structure ResponseSchemaField where
  target : SchemaOrRef
  sampleCount : Option Nat := none


/-- A `MediaTypeObject`: the `schema` key may be absent. -/
structure MediaTypeObject where
  schema : Option ResponseSchemaField := none


/-- A `ResponseObject`; `content := none` models a response with no
`content` key (including a `$ref` response object, which the sampler treats
the same way: `'content' in statusCodeObj` fails). -/
structure ResponseEntry where
  description : String := ""
  content : Option (List (String × MediaTypeObject)) := none


/-- An operation: its `parameters` array and its `responses` object (absent
when the operation carries no `responses` key). -/
structure Operation where
  parameters : List ParameterEntry := []
  responses : Option (List (Nat × ResponseEntry)) := none


/-- The OpenAPI document held by the builder, restricted to the parts the
embedded flows read or write. -/
structure OpenApiDoc where
  schemas : List (String × TSchema) := []
  parameters : List (String × Param) := []
  paths : List (String × List (String × Operation)) := []


def operationAt (doc : OpenApiDoc) (path method : String) : Option Operation :=
  (alookup path doc.paths).bind (fun pathItem => alookup method pathItem)


def responsesAt (doc : OpenApiDoc) (path method : String) :
    Option (List (Nat × ResponseEntry)) :=
  (operationAt doc path method).bind Operation.responses


def responseAt (doc : OpenApiDoc) (path method : String) (status : Nat) :
    Option ResponseEntry :=
  (responsesAt doc path method).bind (fun rs => alookup status rs)


def mediaAt (doc : OpenApiDoc) (path method : String) (status : Nat)
    (contentType : String) : Option MediaTypeObject :=
  ((responseAt doc path method status).bind ResponseEntry.content).bind
    (fun cm => alookup contentType cm)


/-- The optional chain
`paths[path]?.[method]?.responses?.[status]?.content?.[ct]?.schema?.['x-openapi-sample-count']`. -/
def sampleCountAt (doc : OpenApiDoc) (path method : String) (status : Nat)
    (contentType : String) : Option Nat :=
  ((mediaAt doc path method status contentType).bind MediaTypeObject.schema).bind
    ResponseSchemaField.sampleCount


def schemaTargetAt (doc : OpenApiDoc) (path method : String) (status : Nat)
    (contentType : String) : Option SchemaOrRef :=
  ((mediaAt doc path method status contentType).bind MediaTypeObject.schema).map
    ResponseSchemaField.target


/-!
## The observation fed to the handler, and the handler itself
-/


/-- The response body as the handler reads it: `absent` models a null body
stream; otherwise `raw` is the body text and `parsed` records the outcome
of the JavaScript `JSON.parse(raw)` builtin (`none` when it throws), which
is consulted only for JSON content. -/
inductive ResponseBody where
  | absent
  | payload (raw : String) (parsed : Option JsonVal)


/-- One observed response: route path, request method (as sent, the handler
lowercases it), response status, the raw content-type header if present,
and the body. -/
structure Observation where
  path : String
  method : String
  status : Nat
  contentTypeHeader : Option String := none
  body : ResponseBody := .absent


/-- An error escaping the handler (the source has no try/catch around the
post-`next` work, so these surface to the framework). -/
inductive SnoopError where
  | jsonParse
  | refResolve (msg : String)
  | flattenMerge (msg : String)


/-- Strip a `; charset=...` suffix: the source cuts at `indexOf(';')` only
when the separator sits at a positive index. -/
def stripCharset (contentType : String) : String :=
  let beforeSemicolon := String.mk (contentType.data.takeWhile (fun c => c ≠ ';'))
  if 0 < beforeSemicolon.length ∧ beforeSemicolon.length < contentType.length then
    beforeSemicolon
  else contentType


/-- The effective content type: the stripped header, or `text/html` when the
response carries no content-type header (as with `c.text()`). -/
def effectiveContentType (obs : Observation) : String :=
  match obs.contentTypeHeader with
  | none => "text/html"
  | some raw => stripCharset raw


/-- `s.toLowerCase()` (character-wise, over ASCII method names). -/
def jsToLower (s : String) : String := String.mk (s.data.map Char.toLower)


/-- `path.charAt(1).toUpperCase() + path.substring(2)`. -/
def capitalizedRouteName (path : String) : String :=
  match path.data with
  | _ :: c :: rest => String.mk (c.toUpper :: rest)
  | _ => ""


/-- The generated response-body component name, with every `/` replaced by
`_` (the replaceAll runs over the fully assembled name, so it also rewrites
a content type such as `application/json`). -/
def prettyResponseName (path method contentType : String) (status : Nat) : String :=
  String.mk ((capitalizedRouteName path ++ "Response_" ++ method ++ "_" ++ contentType ++ "_"
      ++ toString status).data.map (fun c => if c = '/' then '_' else c))


/-- The `STATUS_CODE_MAP` descriptions (the 418 text reads "I am a teampot"
here only because this file avoids apostrophes; the source spells it with
one, and no theorem depends on the text). -/
def statusCodeDescription (status : Nat) : Option String :=
  if status = 200 then some "Success"
  else if status = 400 then some "Validation Error"
  else if status = 403 then some "Forbidden"
  else if status = 404 then some "Not Found"
  else if status = 418 then some "I am a teampot"
  else if status = 500 then some "Internal Server Error"
  else if status = 504 then some "Gateway Timeout"
  else none


/-- Body reading and schema inference: JSON content runs the reviver over
the parsed value (a parse failure throws), `text/html` and `text/plain`
become a string schema carrying the text as example, anything else infers
nothing.  The second component is `responseData` as the later subsumption
check sees it: the parsed value for JSON, the raw text otherwise. -/
def inferFromBody (contentType : String) (body : ResponseBody) :
    Except SnoopError (Option (TSchema × JsonVal)) :=
  match body with
  | .absent => .ok none
  | .payload raw parsed =>
      if contentType == "application/json" then
        match parsed with
        | none => .error .jsonParse
        | some v => .ok (some (jsonStringToTypeboxSchema v, v))
      else if contentType == "text/html" || contentType == "text/plain" then
        .ok (some (textStringToTypeboxSchema raw, .str raw))
      else .ok none


/-- Rebuild the document with one content cell replaced, mirroring the
in-place mutation of the nested JavaScript object. -/
def writeContentCell (doc : OpenApiDoc) (path method : String)
    (pathItem : List (String × Operation)) (op : Operation)
    (responses : List (Nat × ResponseEntry)) (status : Nat)
    (statusCodeObj : ResponseEntry) (contentMap : List (String × MediaTypeObject))
    (contentType : String) (mediaObj : MediaTypeObject) : OpenApiDoc :=
  { doc with
    paths := alistSet path
      (alistSet method
        { op with responses := some (alistSet status
            { statusCodeObj with content := some (alistSet contentType mediaObj contentMap) }
            responses) }
        pathItem)
      doc.paths }


/-- Rebuild the document with the `responses` object of one operation
replaced and the `components.schemas` table updated. -/
def writeResponses (doc : OpenApiDoc) (path method : String)
    (pathItem : List (String × Operation)) (op : Operation)
    (responses1 : List (Nat × ResponseEntry))
    (schemas1 : List (String × TSchema)) : OpenApiDoc :=
  { doc with
    schemas := schemas1,
    paths := alistSet path (alistSet method { op with responses := some responses1 } pathItem)
      doc.paths }


def setSchemaEntry (doc : OpenApiDoc) (nm : String) (s : TSchema) : OpenApiDoc :=
  { doc with schemas := alistSet nm s doc.schemas }


/-- The post-`next` body of `snoopOnResponseHandler` (`index.ts` 676-984),
acting on the document: content-type normalisation, the sampling gate, body
reading and inference, then navigation to the response cell.  A missing
cell registers the inferred schema under the generated name with
`x-openapi-sample-count: 1`; an existing `$ref` cell resolves the stored
schema, converts it back through `jsonSchemaToTypebox`, increments the
sample count, and then either stops (deep-equal ignoring `example`, or the
raw observed value still checks against the old schema) or replaces the
referenced entry according to the sampling mode; an inline (non-reference)
cell is only warned about.  The second component models an exception
escaping the handler; the first is the document as mutated up to that
point. -/
def snoopOnResponse (handlerOpts globalOpts : Option SampleResponseOptions)
    (doc : OpenApiDoc) (obs : Observation) (randomValue : ℚ) :
    OpenApiDoc × Option SnoopError :=
  let method := jsToLower obs.method
  let contentType := effectiveContentType obs
  let prettyName := prettyResponseName obs.path method contentType obs.status
  let sampledCount := sampleCountAt doc obs.path method obs.status contentType
  if samplingGateSkips handlerOpts globalOpts sampledCount randomValue then (doc, none)
  else
    match inferFromBody contentType obs.body with
    | .error e => (doc, some e)
    | .ok inferredAndValue =>
      match alookup obs.path doc.paths with
      | none => (doc, none)
      | some pathItem =>
        if contentType = "" then (doc, none)
        else
          match inferredAndValue with
          | none => (doc, none)
          | some (inferredSchema, responseData) =>
            match alookup method pathItem with
            | none => (doc, none)
            | some op =>
              match op.responses with
              | none => (doc, none)
              | some responses =>
                match alookup obs.status responses with
                | none =>
                    let r := addBodyTypeToSchema prettyName inferredSchema {} doc.schemas
                    let newEntry : ResponseEntry :=
                      { description := (statusCodeDescription obs.status).getD "",
                        content := some [(contentType,
                          { schema := some { target := .ref r.1, sampleCount := some 1 } })] }
                    (writeResponses doc obs.path method pathItem op
                      (alistSet obs.status newEntry responses) r.2.1, none)
                | some statusCodeObj =>
                  match statusCodeObj.content with
                  | none => (doc, none)
                  | some contentMap =>
                    match alookup contentType contentMap with
                    | none =>
                        let r := addBodyTypeToSchema prettyName inferredSchema {} doc.schemas
                        let entry1 :=
                          { statusCodeObj with content := some (alistSet contentType
                              { schema := some { target := .ref r.1, sampleCount := some 1 } }
                              contentMap) }
                        (writeResponses doc obs.path method pathItem op
                          (alistSet obs.status entry1 responses) r.2.1, none)
                    | some contentTypeObj =>
                      match contentTypeObj.schema with
                      | none => (doc, none)
                      | some schemaField =>
                        match schemaField.target with
                        | .inline _ => (doc, none)
                        | .ref fullRef =>
                          let refId := String.mk (fullRef.data.drop 21)
                          match alookup refId doc.schemas with
                          | none =>
                              (doc, some (.refResolve
                                "Unsupported schema. Did not match any type of the parsers."))
                          | some storedSchema =>
                            match jsonSchemaToTypebox (jsonOfSchema storedSchema) with
                            | .error msg => (doc, some (.refResolve msg))
                            | .ok typeboxRefSchema =>
                              let responsesEqual := isDeepEqual ["example"]
                                (jsonOfSchema typeboxRefSchema) (jsonOfSchema inferredSchema)
                              let newCount :=
                                match schemaField.sampleCount with
                                | some c => c + 1
                                | none => 1
                              let doc1 := writeContentCell doc obs.path method pathItem op
                                responses obs.status statusCodeObj contentMap contentType
                                { contentTypeObj with
                                  schema := some { schemaField with sampleCount := some newCount } }
                              if responsesEqual then (doc1, none)
                              else if check typeboxRefSchema responseData then (doc1, none)
                              else
                                match effectiveSamplingMode handlerOpts globalOpts with
                                | .combine =>
                                    match flattenIntersections
                                        (mergeObjectSchemas typeboxRefSchema inferredSchema) with
                                    | .error msg => (doc1, some (.flattenMerge msg))
                                    | .ok mergedSchema =>
                                        (setSchemaEntry doc1 refId (tstrict mergedSchema), none)
                                | .individual =>
                                    let mergedSchema :=
                                      match typeboxRefSchema with
                                      | .union members => TSchema.union (members ++ [inferredSchema])
                                      | other0 => TSchema.union [other0, inferredSchema]
                                    (setSchemaEntry doc1 refId (tstrict mergedSchema), none)


/-!
## Concrete inputs used by the witnesses and counterexamples
-/

/-- Projection of a flattening result, for stating concrete inequalities. -/
def jsonOfSchemaResult : Except String TSchema → JsonVal
  | .ok s => jsonOfSchema s
  | .error msg => .str msg


def innerIntersect : TSchema :=
  .intersect [.str (some (.str "a")) none, .str (some (.str "b")) none]


def sampleObjectSchema : TSchema := .obj [("p", innerIntersect)] ["p"] (some false)


def sampleIntersection : TSchema := .intersect [sampleObjectSchema, sampleObjectSchema]


def flattenedSampleObject : TSchema := .obj [("p", .str (some (.str "a")) none)] ["p"] none


def c7Param : Param :=
  { location := "query", name := "languageCode", schema := .str none (some (.str "de")),
    required := true }


/-- Witness input for C8: first of three parameters that differ only in their
examples annotation. -/
def c8Param1 : Param :=
  { location := "query", name := "lang", schema := .str none (some (.str "de")),
    required := true }


def c8Param2 : Param :=
  { location := "query", name := "lang", schema := .str none (some (.str "en")),
    required := true }


def c8Param3 : Param :=
  { location := "query", name := "lang", schema := .str none (some (.str "en")),
    required := true }


def c1Stored : TSchema := .obj [("a", .str (some (.str "y")) none)] ["a"] (some false)


def c1Inferred : TSchema := .obj [("a", .str (some (.str "x")) none)] ["a"] (some false)


def c1Media : MediaTypeObject :=
  { schema := some { target := .ref "#/components/schemas/X", sampleCount := some 1 } }


def c1Entry : ResponseEntry :=
  { description := "Success", content := some [("application/json", c1Media)] }


def c1Op : Operation := { parameters := [], responses := some [(200, c1Entry)] }


def c1PathItem : List (String × Operation) := [("get", c1Op)]


def c1Doc : OpenApiDoc :=
  { schemas := [("X", c1Stored)], parameters := [], paths := [("/a", c1PathItem)] }


def c1Obs : Observation :=
  { path := "/a", method := "GET", status := 200,
    contentTypeHeader := some "application/json",
    body := .payload "raw" (some (.obj [("a", .str "x")])) }


def c9Stored : TSchema :=
  .obj [("p", .union [.str none none, .num none none])] ["p"] (some false)


def c9Inferred : TSchema := .obj [("p", .bool (some (.bool true)) none)] ["p"] (some false)


def c9Media : MediaTypeObject :=
  { schema := some { target := .ref "#/components/schemas/X", sampleCount := some 1 } }


def c9Entry : ResponseEntry :=
  { description := "Success", content := some [("application/json", c9Media)] }


def c9Op : Operation := { parameters := [], responses := some [(200, c9Entry)] }


def c9PathItem : List (String × Operation) := [("get", c9Op)]


def c9Doc : OpenApiDoc :=
  { schemas := [("X", c9Stored)], parameters := [], paths := [("/a", c9PathItem)] }


def c9Obs : Observation :=
  { path := "/a", method := "GET", status := 200,
    contentTypeHeader := some "application/json",
    body := .payload "raw" (some (.obj [("p", .bool true)])) }


def c9Opts : Option SampleResponseOptions := some { samplingMode := some .combine }


/-!
## General lemmas
-/


theorem alookup_alistSet_self {α β : Type} [DecidableEq α] (k : α) (v : β)
    (l : List (α × β)) : alookup k (alistSet k v l) = some v := by
  induction l with
  | nil => simp [alistSet, alookup]
  | cons hd tl ih =>
      by_cases h : hd.1 = k
      · simp [alistSet, alookup, h]
      · simp [alistSet, alookup, h, ih]


theorem alookup_alistSet_ne {α β : Type} [DecidableEq α] {k k' : α} (v : β)
    (l : List (α × β)) (h : k' ≠ k) :
    alookup k' (alistSet k v l) = alookup k' l := by
  induction l with
  | nil => simp [alistSet, alookup, Ne.symm h]
  | cons hd tl ih =>
      rcases hd with ⟨k1, v1⟩
      by_cases h1 : k1 = k
      · subst h1
        simp [alistSet, alookup, Ne.symm h]
      · simp only [alistSet, if_neg h1, alookup]
        split
        · rfl
        · exact ih


/-- Two values whose projections compute different `beqJson` answers are
distinct (used to discharge concrete inequalities without a decidable
equality on the nested inductives). -/
theorem ne_of_beqJson_proj {α : Type} (f : α → JsonVal) (a b : α)
    (h1 : beqJson (f a) (f a) = true) (h2 : beqJson (f a) (f b) = false) : a ≠ b := by
  intro h
  rw [← h] at h2
  rw [h1] at h2
  exact Bool.noConfusion h2


theorem mem_setFrom_aux (l acc : List String) (a : String) :
    a ∈ l.foldl (fun acc s => if acc.contains s then acc else acc ++ [s]) acc ↔
      a ∈ acc ∨ a ∈ l := by
  induction l generalizing acc with
  | nil => simp
  | cons hd tl ih =>
      simp only [List.foldl_cons]
      rw [ih]
      by_cases h : acc.contains hd
      · have hm : hd ∈ acc := by
          simpa using h
        simp only [h, if_pos]
        constructor
        · rintro (ha | ht)
          · exact Or.inl ha
          · exact Or.inr (List.mem_cons_of_mem _ ht)
        · rintro (ha | ht)
          · exact Or.inl ha
          · rcases List.mem_cons.mp ht with rfl | ht
            · exact Or.inl hm
            · exact Or.inr ht
      · simp only [h, if_neg, Bool.false_eq_true, not_false_iff]
        constructor
        · rintro (ha | ht)
          · rcases List.mem_append.mp ha with ha | hh
            · exact Or.inl ha
            · simp at hh
              exact Or.inr (by simp [hh])
          · exact Or.inr (List.mem_cons_of_mem _ ht)
        · rintro (ha | ht)
          · exact Or.inl (List.mem_append.mpr (Or.inl ha))
          · rcases List.mem_cons.mp ht with rfl | ht
            · exact Or.inl (by simp)
            · exact Or.inr ht


theorem mem_setFrom (l : List String) (a : String) : a ∈ setFrom l ↔ a ∈ l := by
  unfold setFrom
  rw [mem_setFrom_aux]
  simp


/-- The defining step of the probing loop with a positive budget. -/
theorem probeLoop_succ (p : Param) (parameters : List (String × Param))
    (remaining : Nat) (curName : String) (i : Nat) :
    probeLoop p parameters (remaining + 1) curName i =
      (match alookup curName parameters with
       | some existing =>
           if paramDeepEqual p existing then .found ("#/components/parameters/" ++ curName)
           else probeLoop p parameters remaining (p.name ++ "_" ++ p.location ++ toString i) (i + 1)
       | none => .fresh curName) := rfl


theorem writeContentCell_schemas (doc : OpenApiDoc) (path method : String)
    (pathItem : List (String × Operation)) (op : Operation)
    (responses : List (Nat × ResponseEntry)) (status : Nat)
    (statusCodeObj : ResponseEntry) (contentMap : List (String × MediaTypeObject))
    (contentType : String) (mediaObj : MediaTypeObject) :
    (writeContentCell doc path method pathItem op responses status statusCodeObj contentMap
      contentType mediaObj).schemas = doc.schemas := rfl


theorem writeContentCell_parameters (doc : OpenApiDoc) (path method : String)
    (pathItem : List (String × Operation)) (op : Operation)
    (responses : List (Nat × ResponseEntry)) (status : Nat)
    (statusCodeObj : ResponseEntry) (contentMap : List (String × MediaTypeObject))
    (contentType : String) (mediaObj : MediaTypeObject) :
    (writeContentCell doc path method pathItem op responses status statusCodeObj contentMap
      contentType mediaObj).parameters = doc.parameters := rfl


theorem writeContentCell_media_self (doc : OpenApiDoc) (path method : String)
    (pathItem : List (String × Operation)) (op : Operation)
    (responses : List (Nat × ResponseEntry)) (status : Nat)
    (statusCodeObj : ResponseEntry) (contentMap : List (String × MediaTypeObject))
    (contentType : String) (mediaObj : MediaTypeObject) :
    mediaAt (writeContentCell doc path method pathItem op responses status statusCodeObj
      contentMap contentType mediaObj) path method status contentType = some mediaObj := by
  unfold mediaAt responseAt responsesAt operationAt writeContentCell
  simp [alookup_alistSet_self]


theorem writeContentCell_paths_ne (doc : OpenApiDoc) (path method : String)
    (pathItem : List (String × Operation)) (op : Operation)
    (responses : List (Nat × ResponseEntry)) (status : Nat)
    (statusCodeObj : ResponseEntry) (contentMap : List (String × MediaTypeObject))
    (contentType : String) (mediaObj : MediaTypeObject)
    (p' : String) (hp : p' ≠ path) :
    alookup p' (writeContentCell doc path method pathItem op responses status statusCodeObj
      contentMap contentType mediaObj).paths = alookup p' doc.paths := by
  unfold writeContentCell
  exact alookup_alistSet_ne _ _ hp


theorem writeContentCell_operation_ne (doc : OpenApiDoc) (path method : String)
    (pathItem : List (String × Operation)) (op : Operation)
    (responses : List (Nat × ResponseEntry)) (status : Nat)
    (statusCodeObj : ResponseEntry) (contentMap : List (String × MediaTypeObject))
    (contentType : String) (mediaObj : MediaTypeObject)
    (hpath : alookup path doc.paths = some pathItem)
    (m' : String) (hm : m' ≠ method) :
    operationAt (writeContentCell doc path method pathItem op responses status statusCodeObj
      contentMap contentType mediaObj) path m' = operationAt doc path m' := by
  unfold operationAt writeContentCell
  simp only [alookup_alistSet_self, hpath, Option.some_bind]
  exact alookup_alistSet_ne _ _ hm


theorem writeContentCell_response_ne (doc : OpenApiDoc) (path method : String)
    (pathItem : List (String × Operation)) (op : Operation)
    (responses : List (Nat × ResponseEntry)) (status : Nat)
    (statusCodeObj : ResponseEntry) (contentMap : List (String × MediaTypeObject))
    (contentType : String) (mediaObj : MediaTypeObject)
    (hpath : alookup path doc.paths = some pathItem)
    (hmethod : alookup method pathItem = some op)
    (hresps : op.responses = some responses)
    (st' : Nat) (hst : st' ≠ status) :
    responseAt (writeContentCell doc path method pathItem op responses status statusCodeObj
      contentMap contentType mediaObj) path method st' = responseAt doc path method st' := by
  unfold responseAt responsesAt operationAt writeContentCell
  simp only [alookup_alistSet_self, hpath, hmethod, hresps, Option.some_bind]
  exact alookup_alistSet_ne _ _ hst


theorem writeContentCell_mediaAt_ne (doc : OpenApiDoc) (path method : String)
    (pathItem : List (String × Operation)) (op : Operation)
    (responses : List (Nat × ResponseEntry)) (status : Nat)
    (statusCodeObj : ResponseEntry) (contentMap : List (String × MediaTypeObject))
    (contentType : String) (mediaObj : MediaTypeObject)
    (hpath : alookup path doc.paths = some pathItem)
    (hmethod : alookup method pathItem = some op)
    (hresps : op.responses = some responses)
    (hstatus : alookup status responses = some statusCodeObj)
    (hcontent : statusCodeObj.content = some contentMap)
    (ct' : String) (hct : ct' ≠ contentType) :
    mediaAt (writeContentCell doc path method pathItem op responses status statusCodeObj
      contentMap contentType mediaObj) path method status ct' =
      mediaAt doc path method status ct' := by
  unfold mediaAt responseAt responsesAt operationAt writeContentCell
  simp only [alookup_alistSet_self, hpath, hmethod, hresps, hstatus, hcontent, Option.some_bind]
  exact alookup_alistSet_ne _ _ hct


/-!
## Claims
-/


/-- C2: the sampler proceeds past the sampling gate whenever no
x-openapi-sample-count is recorded; otherwise it skips exactly when the
recorded count has reached the effective samplingMaxCount or the freshly
drawn random value exceeds the effective samplingInterval, where the
per-route override takes precedence over the per-instance default, which
takes precedence over the built-in defaults (interval 1, maxCount
Infinity); with effective interval 1 and the count below the maximum, no
observation is skipped. -/
theorem samplingGate_policy (handlerOpts globalOpts : Option SampleResponseOptions)
    (randomValue : ℚ) :
    samplingGateSkips handlerOpts globalOpts none randomValue = false
    ∧ (∀ c : Nat,
        samplingGateSkips handlerOpts globalOpts (some c) randomValue = true ↔
          (sampleCountReached c (effectiveSamplingMaxCount handlerOpts globalOpts) = true
            ∨ effectiveSamplingInterval handlerOpts globalOpts < randomValue))
    ∧ (∀ ho : SampleResponseOptions, ∀ q : ℚ, ho.samplingInterval = some q →
        effectiveSamplingInterval (some ho) globalOpts = q)
    ∧ (∀ ho : SampleResponseOptions, ho.samplingInterval = none →
        effectiveSamplingInterval (some ho) globalOpts =
          effectiveSamplingInterval none globalOpts)
    ∧ (∀ ho : SampleResponseOptions, ∀ m : Nat, ho.samplingMaxCount = some m →
        effectiveSamplingMaxCount (some ho) globalOpts = some m)
    ∧ (∀ ho : SampleResponseOptions, ho.samplingMaxCount = none →
        effectiveSamplingMaxCount (some ho) globalOpts =
          effectiveSamplingMaxCount none globalOpts)
    ∧ effectiveSamplingInterval none none = 1
    ∧ effectiveSamplingMaxCount none none = none
    ∧ (∀ c : Nat,
        effectiveSamplingInterval handlerOpts globalOpts = 1 →
        sampleCountReached c (effectiveSamplingMaxCount handlerOpts globalOpts) = false →
        0 ≤ randomValue → randomValue < 1 →
        samplingGateSkips handlerOpts globalOpts (some c) randomValue = false) := by
  refine ⟨rfl, ?_, ?_, ?_, ?_, ?_, rfl, rfl, ?_⟩
  · intro c
    simp [samplingGateSkips]
  · intro ho q h
    simp [effectiveSamplingInterval, firstSome, h]
  · intro ho h
    simp [effectiveSamplingInterval, firstSome, h]
  · intro ho m h
    simp [effectiveSamplingMaxCount, h]
  · intro ho h
    simp [effectiveSamplingMaxCount, h]
  · intro c h1 h2 h0 hlt
    simp only [samplingGateSkips, h1, h2, Bool.false_or, decide_eq_false_iff_not, not_lt]
    linarith


/-- Witness for C2 at a concrete input: with a per-route maxCount of 10, a
recorded count of 5, the default interval 1 and a drawn value of 1/2, the
gate does not skip. -/
theorem samplingGate_policy_witness :
    samplingGateSkips (some { samplingMaxCount := some 10 }) none (some 5) (1 / 2) = false := by
  have h := samplingGate_policy (some { samplingMaxCount := some 10 }) none (1 / 2)
  exact h.2.2.2.2.2.2.2.2 5 (by rfl) (by rfl) (by norm_num) (by norm_num)


/-- C3: for two object schemas, `mergeObjectSchemas` returns a schema whose
required-property set is exactly the intersection of the two operands'
required sets (hence in particular a subset of each). -/
theorem mergeObjectSchemas_required_is_intersection
    (pa pb : List (String × TSchema)) (ra rb : List String) (aa ab : Option Bool)
    (s : String) :
    s ∈ requiredListOfSchema
        (mergeObjectSchemas (.obj pa ra aa) (.obj pb rb ab)) ↔ s ∈ ra ∧ s ∈ rb := by
  unfold mergeObjectSchemas typeComposite
  simp only [requiredListOfSchema]
  rw [mem_setFrom]
  simp [List.mem_filter]


/-- C4: evaluation at the failing input.  Flattening an intersection whose
single surviving member is an object containing a collapsible inner
intersection returns that member unchanged (the recursively flattened
member computed by the source is discarded), although flattening the
member itself produces a different schema - so members are not actually
flattened as the claim states. -/
theorem flatten_member_kept_unflattened :
    flattenIntersections sampleIntersection = .ok sampleObjectSchema
    ∧ flattenIntersections sampleObjectSchema = .ok flattenedSampleObject
    ∧ sampleObjectSchema ≠ flattenedSampleObject :=
  ⟨rfl, rfl, ne_of_beqJson_proj jsonOfSchema _ _ rfl rfl⟩


/-- C5: evaluation at the failing input.  Applying `flattenIntersections`
twice to `sampleIntersection` differs from applying it once, because the
first application keeps the surviving member unflattened and the second
application then flattens it. -/
theorem flatten_not_idempotent :
    (flattenIntersections sampleIntersection).bind flattenIntersections ≠
      flattenIntersections sampleIntersection :=
  ne_of_beqJson_proj jsonOfSchemaResult _ _ rfl rfl


/-- C6: evaluation at the failing input.  Registering the same node twice
under name Foo returns `#/components/schemas/Foo` the first time but
`#/components/schema/Foo` (the reference stored into the node's map, which
lacks the trailing s) the second time; the second call adds no entry. -/
theorem addBody_second_call_returns_different_ref :
    (addBodyTypeToSchema "Foo" (.str none none) {} []).1 = "#/components/schemas/Foo"
    ∧ (addBodyTypeToSchema "Foo" (.str none none)
        (addBodyTypeToSchema "Foo" (.str none none) {} []).2.2
        (addBodyTypeToSchema "Foo" (.str none none) {} []).2.1).1 = "#/components/schema/Foo"
    ∧ (addBodyTypeToSchema "Foo" (.str none none)
        (addBodyTypeToSchema "Foo" (.str none none) {} []).2.2
        (addBodyTypeToSchema "Foo" (.str none none) {} []).2.1).2.1 =
        (addBodyTypeToSchema "Foo" (.str none none) {} []).2.1
    ∧ "#/components/schemas/Foo" ≠ "#/components/schema/Foo" :=
  ⟨rfl, rfl, rfl, by decide⟩


/-- C7: registering the same parameter node (same schema node, name and
location) twice returns the identical reference both times and the second
call changes nothing: whatever the first registration did (fresh entry, or
structural reuse of an existing one), the second call returns the same
reference with the parameters table and the reference map unchanged - in
the fresh case through the reference-map fast path written by the first
call. -/
theorem addParameter_same_node_reuses_ref
    (p : Param) (refMap : OpenApiRefMap) (parameters : List (String × Param))
    (r : String) (parameters1 : List (String × Param)) (refMap1 : OpenApiRefMap)
    (hloc : p.location = "query" ∨ p.location = "cookie" ∨ p.location = "path"
      ∨ p.location = "header")
    (hfast : refMap.get p.location = none)
    (hfirst : addParameterToSchema p refMap parameters = .ok (r, parameters1, refMap1)) :
    addParameterToSchema p refMap1 parameters1 = .ok (r, parameters1, refMap1) := by
  unfold addParameterToSchema at hfirst ⊢
  rw [hfast] at hfirst
  cases hprobe : probeLoop p parameters 2000 (p.name ++ "_" ++ p.location) 0 with
  | found r0 =>
      rw [hprobe] at hfirst
      simp only [Except.ok.injEq, Prod.mk.injEq] at hfirst
      obtain ⟨rfl, rfl, rfl⟩ := hfirst
      rw [hfast]
      simp [hprobe]
  | fresh nm =>
      rw [hprobe] at hfirst
      simp only [Except.ok.injEq, Prod.mk.injEq] at hfirst
      obtain ⟨h1, h2, h3⟩ := hfirst
      have hget : refMap1.get p.location = some ("#/components/parameters/" ++ nm) := by
        rw [← h3]
        rcases hloc with h | h | h | h <;> rw [h] <;> rfl
      simp only [hget, h1, h2]
  | exhausted =>
      rw [hprobe] at hfirst
      exact absurd hfirst (by simp)


/-- Witness for C7 at a concrete registration starting from an empty
document. -/
theorem addParameter_same_node_reuses_ref_witness :
    addParameterToSchema c7Param
      (OpenApiRefMap.set {} "query" "#/components/parameters/languageCode_query")
      [("languageCode_query", { c7Param with schema := tstrict c7Param.schema })] =
      .ok ("#/components/parameters/languageCode_query",
        [("languageCode_query", { c7Param with schema := tstrict c7Param.schema })],
        OpenApiRefMap.set {} "query" "#/components/parameters/languageCode_query") :=
  addParameter_same_node_reuses_ref c7Param {} [] _ _ _ (Or.inl rfl) rfl rfl


/-- C8: starting from an empty parameters table, registering two
structurally different parameters both named lang under location query
yields the two distinct references lang_query and lang_query0 (the second
via the numeric-suffix probe), and registering a third parameter
structurally equal (ignoring the reference map) to the second reuses
lang_query0 without creating a new entry or touching the third node's
reference map. -/
theorem addParameter_collision_disambiguation
    (p1 p2 p3 : Param) (m1 m2 m3 : OpenApiRefMap)
    (hn1 : p1.name = "lang") (hl1 : p1.location = "query")
    (hn2 : p2.name = "lang") (hl2 : p2.location = "query")
    (hn3 : p3.name = "lang") (hl3 : p3.location = "query")
    (hm1 : m1.get "query" = none) (hm2 : m2.get "query" = none) (hm3 : m3.get "query" = none)
    (hne2 : paramDeepEqual p2 { p1 with schema := tstrict p1.schema } = false)
    (hne3 : paramDeepEqual p3 { p1 with schema := tstrict p1.schema } = false)
    (heq3 : paramDeepEqual p3 { p2 with schema := tstrict p2.schema } = true) :
    addParameterToSchema p1 m1 [] =
      .ok ("#/components/parameters/lang_query",
        [("lang_query", { p1 with schema := tstrict p1.schema })],
        m1.set "query" "#/components/parameters/lang_query")
    ∧ addParameterToSchema p2 m2
        [("lang_query", { p1 with schema := tstrict p1.schema })] =
      .ok ("#/components/parameters/lang_query0",
        [("lang_query", { p1 with schema := tstrict p1.schema }),
         ("lang_query0", { p2 with schema := tstrict p2.schema })],
        m2.set "query" "#/components/parameters/lang_query0")
    ∧ addParameterToSchema p3 m3
        [("lang_query", { p1 with schema := tstrict p1.schema }),
         ("lang_query0", { p2 with schema := tstrict p2.schema })] =
      .ok ("#/components/parameters/lang_query0",
        [("lang_query", { p1 with schema := tstrict p1.schema }),
         ("lang_query0", { p2 with schema := tstrict p2.schema })],
        m3) := by
  refine ⟨?_, ?_, ?_⟩
  · unfold addParameterToSchema
    rw [hn1, hl1, hm1]
    have e1 : probeLoop p1 [] 2000 ("lang" ++ "_" ++ "query") 0 = .fresh "lang_query" := rfl
    simp only [e1]
    rw [← hn1, ← hl1]
    rfl
  · unfold addParameterToSchema
    rw [hn2, hl2, hm2]
    have s1 : probeLoop p2 [("lang_query", { p1 with schema := tstrict p1.schema })] 2000
        ("lang" ++ "_" ++ "query") 0 =
        probeLoop p2 [("lang_query", { p1 with schema := tstrict p1.schema })] 1999
          (p2.name ++ "_" ++ p2.location ++ toString 0) 1 := by
      rw [show (2000 : Nat) = 1999 + 1 from rfl, probeLoop_succ]
      have ha : alookup ("lang" ++ "_" ++ "query")
          [("lang_query", { p1 with schema := tstrict p1.schema })] =
          some { p1 with schema := tstrict p1.schema } := rfl
      rw [ha]
      simp only [hne2, if_neg, Bool.false_eq_true, not_false_iff]
    have s2 : probeLoop p2 [("lang_query", { p1 with schema := tstrict p1.schema })] 1999
        ("lang" ++ "_" ++ "query" ++ toString 0) 1 = .fresh "lang_query0" := rfl
    rw [s1, hn2, hl2, s2]
    rw [← hn2, ← hl2]
    rfl
  · unfold addParameterToSchema
    rw [hn3, hl3, hm3]
    have t1 : probeLoop p3
        [("lang_query", { p1 with schema := tstrict p1.schema }),
         ("lang_query0", { p2 with schema := tstrict p2.schema })] 2000
        ("lang" ++ "_" ++ "query") 0 =
        probeLoop p3
          [("lang_query", { p1 with schema := tstrict p1.schema }),
           ("lang_query0", { p2 with schema := tstrict p2.schema })] 1999
          (p3.name ++ "_" ++ p3.location ++ toString 0) 1 := by
      rw [show (2000 : Nat) = 1999 + 1 from rfl, probeLoop_succ]
      have ha : alookup ("lang" ++ "_" ++ "query")
          [("lang_query", { p1 with schema := tstrict p1.schema }),
           ("lang_query0", { p2 with schema := tstrict p2.schema })] =
          some { p1 with schema := tstrict p1.schema } := rfl
      rw [ha]
      simp only [hne3, if_neg, Bool.false_eq_true, not_false_iff]
    have t2 : probeLoop p3
        [("lang_query", { p1 with schema := tstrict p1.schema }),
         ("lang_query0", { p2 with schema := tstrict p2.schema })] 1999
        ("lang" ++ "_" ++ "query" ++ toString 0) 1 =
        .found ("#/components/parameters/" ++ "lang_query0") := by
      rw [show (1999 : Nat) = 1998 + 1 from rfl, probeLoop_succ]
      have ha : alookup ("lang" ++ "_" ++ "query" ++ toString 0)
          [("lang_query", { p1 with schema := tstrict p1.schema }),
           ("lang_query0", { p2 with schema := tstrict p2.schema })] =
          some { p2 with schema := tstrict p2.schema } := rfl
      rw [ha]
      simp only [heq3, if_pos]
      rfl
    rw [t1, hn3, hl3, t2]
    rfl


theorem addParameter_collision_disambiguation_witness :
    addParameterToSchema c8Param1 {} [] =
      .ok ("#/components/parameters/lang_query",
        [("lang_query", { c8Param1 with schema := tstrict c8Param1.schema })],
        OpenApiRefMap.set {} "query" "#/components/parameters/lang_query")
    ∧ addParameterToSchema c8Param2 {}
        [("lang_query", { c8Param1 with schema := tstrict c8Param1.schema })] =
      .ok ("#/components/parameters/lang_query0",
        [("lang_query", { c8Param1 with schema := tstrict c8Param1.schema }),
         ("lang_query0", { c8Param2 with schema := tstrict c8Param2.schema })],
        OpenApiRefMap.set {} "query" "#/components/parameters/lang_query0")
    ∧ addParameterToSchema c8Param3 {}
        [("lang_query", { c8Param1 with schema := tstrict c8Param1.schema }),
         ("lang_query0", { c8Param2 with schema := tstrict c8Param2.schema })] =
      .ok ("#/components/parameters/lang_query0",
        [("lang_query", { c8Param1 with schema := tstrict c8Param1.schema }),
         ("lang_query0", { c8Param2 with schema := tstrict c8Param2.schema })],
        ({} : OpenApiRefMap)) :=
  addParameter_collision_disambiguation c8Param1 c8Param2 c8Param3 {} {} {}
    rfl rfl rfl rfl rfl rfl rfl rfl rfl rfl rfl rfl


theorem addParameterProps_entries_refs (location : String) (required : List String) :
    ∀ (props : List (String × TSchema × OpenApiRefMap)) (parameters : List ParameterEntry)
      (docParams : List (String × Param)) (entries : List ParameterEntry)
      (docParams1 : List (String × Param)),
      addParameterProps location required props parameters docParams = .ok (entries, docParams1) →
      ∀ e ∈ entries, e ∈ parameters ∨ ∃ ref, e = ParameterEntry.refEntry ref := by
  intro props
  induction props with
  | nil =>
      intro parameters docParams entries docParams1 h e he
      simp only [addParameterProps, Except.ok.injEq, Prod.mk.injEq] at h
      exact Or.inl (h.1 ▸ he)
  | cons hd tl ih =>
      intro parameters docParams entries docParams1 h e he
      rcases hd with ⟨nm, schema, refMap⟩
      simp only [addParameterProps] at h
      cases hcall : addParameterToSchema
          { location := location, name := nm, schema := schema,
            required := required.contains nm,
            examples := if (match schemaExamples schema with
                            | some (.arr _) => true
                            | _ => false) then schemaExamples schema else none,
            exampleOpt := if (match schemaExamples schema with
                              | some (.arr _) => true
                              | _ => false) then none else schemaExamples schema }
          refMap docParams with
      | error msg =>
          rw [hcall] at h
          exact absurd h (by simp)
      | ok r =>
          rw [hcall] at h
          have := ih (parameters ++ [.refEntry r.1]) r.2.1 entries docParams1 h e he
          rcases this with hmem | href
          · rcases List.mem_append.mp hmem with hmem | hone
            · exact Or.inl hmem
            · simp only [List.mem_singleton] at hone
              exact Or.inr ⟨r.1, hone⟩
          · exact Or.inr href


/-- C10: for a route without a declared path-parameter validation schema,
each `/:name` segment of the route path contributes one inline path
parameter (name `name`, string schema, required) appended to the already
assembled parameter entries, with no `components.parameters` registration;
and when a path schema is declared, the inference is not used - every entry
the declared branch appends is a reference into `components.parameters`. -/
theorem pathParams_inferred_inline
    (path : String) (parameters : List ParameterEntry) (docParams : List (String × Param)) :
    operationParameters none path parameters docParams =
      .ok (parameters ++ (pathParamMatches path).map (fun n =>
        ParameterEntry.inlineParam
          { location := "path", name := n, schema := .str none none, required := true }),
        docParams)
    ∧ ∀ (node : ObjectSchemaNode) (entries : List ParameterEntry)
        (docParams1 : List (String × Param)),
        operationParameters (some node) path parameters docParams = .ok (entries, docParams1) →
        ∀ e ∈ entries, e ∈ parameters ∨ ∃ ref, e = ParameterEntry.refEntry ref := by
  constructor
  · simp [operationParameters, inferredPathParameters, List.map_map]
  · intro node entries docParams1 h e he
    simp only [operationParameters, addParameter] at h
    exact addParameterProps_entries_refs "path" node.required node.properties parameters
      docParams entries docParams1 h e he


/-- Witness for C10: the inference on `/posts/:id/comment/:comment_id`, and
a declared one-property path schema producing a single reference entry. -/
theorem pathParams_inferred_inline_witness :
    operationParameters none "/posts/:id/comment/:comment_id" [] [] =
      .ok ([.inlineParam
              { location := "path", name := "id", schema := .str none none, required := true },
            .inlineParam
              { location := "path", name := "comment_id", schema := .str none none,
                required := true }], [])
    ∧ (∀ e ∈ [ParameterEntry.refEntry "#/components/parameters/id_path"],
        e ∈ ([] : List ParameterEntry) ∨ ∃ ref, e = ParameterEntry.refEntry ref) := by
  constructor
  · exact (pathParams_inferred_inline "/posts/:id/comment/:comment_id" [] []).1
  · refine (pathParams_inferred_inline "/account" [] []).2
      { properties := [("id", TSchema.num none none, {})], required := ["id"] }
      [ParameterEntry.refEntry "#/components/parameters/id_path"]
      ([("id_path",
          ({ location := "path", name := "id", schema := TSchema.num none none,
             required := true } : Param))]) rfl


/-- C1: for an observed response whose stored response schema at
(path, method, status, contentType) is a reference into
`components.schemas` carrying a recorded sample count, if the inferred
schema is deep-equal (ignoring `example`) to the resolved referenced
schema, or the observed response value still checks against it, then the
sampler increments the stored `x-openapi-sample-count` by exactly one and
changes nothing else: no error, `components.schemas` (including the
referenced entry) and `components.parameters` are untouched, the cell
keeps its reference target, and every other path, method, status code and
content type reads back unchanged. -/
theorem snoop_equal_or_subsumed_increment_only
    (handlerOpts globalOpts : Option SampleResponseOptions)
    (doc : OpenApiDoc) (obs : Observation) (randomValue : ℚ)
    (pathItem : List (String × Operation)) (op : Operation)
    (responses : List (Nat × ResponseEntry)) (statusCodeObj : ResponseEntry)
    (contentMap : List (String × MediaTypeObject)) (contentTypeObj : MediaTypeObject)
    (schemaField : ResponseSchemaField) (fullRef : String)
    (storedSchema typeboxRefSchema inferredSchema : TSchema)
    (responseData : JsonVal) (c : Nat)
    (hpath : alookup obs.path doc.paths = some pathItem)
    (hct : ¬ effectiveContentType obs = "")
    (hmethod : alookup (jsToLower obs.method) pathItem = some op)
    (hresps : op.responses = some responses)
    (hstatus : alookup obs.status responses = some statusCodeObj)
    (hcontent : statusCodeObj.content = some contentMap)
    (hmedia : alookup (effectiveContentType obs) contentMap = some contentTypeObj)
    (hschema : contentTypeObj.schema = some schemaField)
    (htarget : schemaField.target = .ref fullRef)
    (hcount : schemaField.sampleCount = some c)
    (hgate : samplingGateSkips handlerOpts globalOpts (some c) randomValue = false)
    (hinfer : inferFromBody (effectiveContentType obs) obs.body =
      .ok (some (inferredSchema, responseData)))
    (hstored : alookup (String.mk (fullRef.data.drop 21)) doc.schemas = some storedSchema)
    (hconv : jsonSchemaToTypebox (jsonOfSchema storedSchema) = .ok typeboxRefSchema)
    (hmatch : isDeepEqual ["example"] (jsonOfSchema typeboxRefSchema)
        (jsonOfSchema inferredSchema) = true
      ∨ check typeboxRefSchema responseData = true) :
    (snoopOnResponse handlerOpts globalOpts doc obs randomValue).2 = none
    ∧ (snoopOnResponse handlerOpts globalOpts doc obs randomValue).1.schemas = doc.schemas
    ∧ (snoopOnResponse handlerOpts globalOpts doc obs randomValue).1.parameters =
        doc.parameters
    ∧ sampleCountAt (snoopOnResponse handlerOpts globalOpts doc obs randomValue).1 obs.path
        (jsToLower obs.method) obs.status (effectiveContentType obs) = some (c + 1)
    ∧ schemaTargetAt (snoopOnResponse handlerOpts globalOpts doc obs randomValue).1 obs.path
        (jsToLower obs.method) obs.status (effectiveContentType obs) =
        some (.ref fullRef)
    ∧ (∀ p', p' ≠ obs.path →
        alookup p' (snoopOnResponse handlerOpts globalOpts doc obs randomValue).1.paths =
          alookup p' doc.paths)
    ∧ (∀ m', m' ≠ jsToLower obs.method →
        operationAt (snoopOnResponse handlerOpts globalOpts doc obs randomValue).1 obs.path m' =
          operationAt doc obs.path m')
    ∧ (∀ st', st' ≠ obs.status →
        responseAt (snoopOnResponse handlerOpts globalOpts doc obs randomValue).1 obs.path
          (jsToLower obs.method) st' = responseAt doc obs.path (jsToLower obs.method) st')
    ∧ (∀ ct', ct' ≠ effectiveContentType obs →
        mediaAt (snoopOnResponse handlerOpts globalOpts doc obs randomValue).1 obs.path
          (jsToLower obs.method) obs.status ct' =
          mediaAt doc obs.path (jsToLower obs.method) obs.status ct') := by
  have hsc : sampleCountAt doc obs.path (jsToLower obs.method) obs.status
      (effectiveContentType obs) = some c := by
    unfold sampleCountAt mediaAt responseAt responsesAt operationAt
    rw [hpath]
    simp only [Option.some_bind, hmethod, hresps, hstatus, hcontent, hmedia, hschema, hcount]
  have hmain : snoopOnResponse handlerOpts globalOpts doc obs randomValue =
      (writeContentCell doc obs.path (jsToLower obs.method) pathItem op responses obs.status
        statusCodeObj contentMap (effectiveContentType obs)
        { contentTypeObj with
          schema := some { schemaField with sampleCount := some (c + 1) } },
       none) := by
    unfold snoopOnResponse
    simp only [hsc, hgate, Bool.false_eq_true, if_false, hinfer, hpath, if_neg hct, hmethod,
      hresps, hstatus, hcontent, hmedia, hschema, htarget, hstored, hconv, hcount]
    rcases hmatch with hEq | hChk
    · simp [hEq]
    · cases hEq : isDeepEqual ["example"] (jsonOfSchema typeboxRefSchema)
          (jsonOfSchema inferredSchema) with
      | true => simp
      | false => simp [hChk]
  refine ⟨?_, ?_, ?_, ?_, ?_, ?_, ?_, ?_, ?_⟩
  · rw [hmain]
  · rw [hmain]
    rfl
  · rw [hmain]
    rfl
  · rw [hmain]
    unfold sampleCountAt
    rw [writeContentCell_media_self]
    rfl
  · rw [hmain]
    unfold schemaTargetAt
    rw [writeContentCell_media_self]
    simp [htarget]
  · intro p' hp
    rw [hmain]
    exact writeContentCell_paths_ne doc obs.path (jsToLower obs.method) pathItem op responses
      obs.status statusCodeObj contentMap (effectiveContentType obs) _ p' hp
  · intro m' hm
    rw [hmain]
    exact writeContentCell_operation_ne doc obs.path (jsToLower obs.method) pathItem op
      responses obs.status statusCodeObj contentMap (effectiveContentType obs) _ hpath m' hm
  · intro st' hst
    rw [hmain]
    exact writeContentCell_response_ne doc obs.path (jsToLower obs.method) pathItem op
      responses obs.status statusCodeObj contentMap (effectiveContentType obs) _ hpath
      hmethod hresps st' hst
  · intro ct' hctne
    rw [hmain]
    exact writeContentCell_mediaAt_ne doc obs.path (jsToLower obs.method) pathItem op
      responses obs.status statusCodeObj contentMap (effectiveContentType obs) _ hpath
      hmethod hresps hstatus hcontent ct' hctne


/-- Witness for C1: a stored referenced object schema differing from the
inferred one only in the example annotation; the observation bumps the
count from 1 to 2 and changes nothing else. -/
theorem snoop_equal_or_subsumed_increment_only_witness :
    (snoopOnResponse none none c1Doc c1Obs 0).2 = none
    ∧ (snoopOnResponse none none c1Doc c1Obs 0).1.schemas = c1Doc.schemas
    ∧ (snoopOnResponse none none c1Doc c1Obs 0).1.parameters = c1Doc.parameters
    ∧ sampleCountAt (snoopOnResponse none none c1Doc c1Obs 0).1 c1Obs.path
        (jsToLower c1Obs.method) c1Obs.status (effectiveContentType c1Obs) = some (1 + 1)
    ∧ schemaTargetAt (snoopOnResponse none none c1Doc c1Obs 0).1 c1Obs.path
        (jsToLower c1Obs.method) c1Obs.status (effectiveContentType c1Obs) =
        some (.ref "#/components/schemas/X")
    ∧ (∀ p', p' ≠ c1Obs.path →
        alookup p' (snoopOnResponse none none c1Doc c1Obs 0).1.paths =
          alookup p' c1Doc.paths)
    ∧ (∀ m', m' ≠ jsToLower c1Obs.method →
        operationAt (snoopOnResponse none none c1Doc c1Obs 0).1 c1Obs.path m' =
          operationAt c1Doc c1Obs.path m')
    ∧ (∀ st', st' ≠ c1Obs.status →
        responseAt (snoopOnResponse none none c1Doc c1Obs 0).1 c1Obs.path
          (jsToLower c1Obs.method) st' =
          responseAt c1Doc c1Obs.path (jsToLower c1Obs.method) st')
    ∧ (∀ ct', ct' ≠ effectiveContentType c1Obs →
        mediaAt (snoopOnResponse none none c1Doc c1Obs 0).1 c1Obs.path
          (jsToLower c1Obs.method) c1Obs.status ct' =
          mediaAt c1Doc c1Obs.path (jsToLower c1Obs.method) c1Obs.status ct') :=
  snoop_equal_or_subsumed_increment_only none none c1Doc c1Obs 0 c1PathItem c1Op
    [(200, c1Entry)] c1Entry [("application/json", c1Media)] c1Media
    { target := .ref "#/components/schemas/X", sampleCount := some 1 }
    "#/components/schemas/X" c1Stored c1Stored c1Inferred (.obj [("a", .str "x")]) 1
    rfl (by decide) rfl rfl rfl rfl rfl rfl rfl rfl rfl rfl rfl rfl (Or.inl rfl)


/-- Counterexample for C9: at this observation (stored referenced schema
with a union-typed property, combine mode, an observed value that neither
matches nor checks) the internal flattening error escapes the middleware,
and the document has already been updated (the sample count was bumped
from 1 to 2 before the failure) - so a failure neither stays inside the
middleware nor results only in "no document update". -/
theorem snoop_internal_error_escapes_counterexample :
    (snoopOnResponse c9Opts none c9Doc c9Obs 0).2 =
      some (.flattenMerge "Type undefined Not yet supported by flattening operation")
    ∧ sampleCountAt (snoopOnResponse c9Opts none c9Doc c9Obs 0).1 "/a" "get" 200
        "application/json" = some 2 := ⟨rfl, rfl⟩


/-- C9 (amended): the sampling middleware does not catch internal errors.
When merging an existing referenced response schema in combine mode fails
during flattening, the error propagates out of the observation step, and
the document keeps exactly the sample-count increment performed before the
failure: `components.schemas` (including the referenced entry) and
`components.parameters` are unchanged and no schema replacement happens. -/
theorem snoop_flatten_error_propagates_after_increment
    (handlerOpts globalOpts : Option SampleResponseOptions)
    (doc : OpenApiDoc) (obs : Observation) (randomValue : ℚ)
    (pathItem : List (String × Operation)) (op : Operation)
    (responses : List (Nat × ResponseEntry)) (statusCodeObj : ResponseEntry)
    (contentMap : List (String × MediaTypeObject)) (contentTypeObj : MediaTypeObject)
    (schemaField : ResponseSchemaField) (fullRef : String)
    (storedSchema typeboxRefSchema inferredSchema : TSchema)
    (responseData : JsonVal) (c : Nat) (msg : String)
    (hpath : alookup obs.path doc.paths = some pathItem)
    (hct : ¬ effectiveContentType obs = "")
    (hmethod : alookup (jsToLower obs.method) pathItem = some op)
    (hresps : op.responses = some responses)
    (hstatus : alookup obs.status responses = some statusCodeObj)
    (hcontent : statusCodeObj.content = some contentMap)
    (hmedia : alookup (effectiveContentType obs) contentMap = some contentTypeObj)
    (hschema : contentTypeObj.schema = some schemaField)
    (htarget : schemaField.target = .ref fullRef)
    (hcount : schemaField.sampleCount = some c)
    (hgate : samplingGateSkips handlerOpts globalOpts (some c) randomValue = false)
    (hinfer : inferFromBody (effectiveContentType obs) obs.body =
      .ok (some (inferredSchema, responseData)))
    (hstored : alookup (String.mk (fullRef.data.drop 21)) doc.schemas = some storedSchema)
    (hconv : jsonSchemaToTypebox (jsonOfSchema storedSchema) = .ok typeboxRefSchema)
    (hne : isDeepEqual ["example"] (jsonOfSchema typeboxRefSchema)
      (jsonOfSchema inferredSchema) = false)
    (hchk : check typeboxRefSchema responseData = false)
    (hmode : effectiveSamplingMode handlerOpts globalOpts = .combine)
    (hflat : flattenIntersections (mergeObjectSchemas typeboxRefSchema inferredSchema) =
      .error msg) :
    (snoopOnResponse handlerOpts globalOpts doc obs randomValue).2 =
      some (.flattenMerge msg)
    ∧ (snoopOnResponse handlerOpts globalOpts doc obs randomValue).1.schemas = doc.schemas
    ∧ (snoopOnResponse handlerOpts globalOpts doc obs randomValue).1.parameters =
        doc.parameters
    ∧ sampleCountAt (snoopOnResponse handlerOpts globalOpts doc obs randomValue).1 obs.path
        (jsToLower obs.method) obs.status (effectiveContentType obs) = some (c + 1) := by
  have hsc : sampleCountAt doc obs.path (jsToLower obs.method) obs.status
      (effectiveContentType obs) = some c := by
    unfold sampleCountAt mediaAt responseAt responsesAt operationAt
    rw [hpath]
    simp only [Option.some_bind, hmethod, hresps, hstatus, hcontent, hmedia, hschema, hcount]
  have hmain : snoopOnResponse handlerOpts globalOpts doc obs randomValue =
      (writeContentCell doc obs.path (jsToLower obs.method) pathItem op responses obs.status
        statusCodeObj contentMap (effectiveContentType obs)
        { contentTypeObj with
          schema := some { schemaField with sampleCount := some (c + 1) } },
       some (.flattenMerge msg)) := by
    unfold snoopOnResponse
    simp only [hsc, hgate, Bool.false_eq_true, if_false, hinfer, hpath, if_neg hct, hmethod,
      hresps, hstatus, hcontent, hmedia, hschema, htarget, hstored, hconv, hcount, hne,
      hchk, hmode, hflat]
  refine ⟨?_, ?_, ?_, ?_⟩
  · rw [hmain]
  · rw [hmain]
    rfl
  · rw [hmain]
    rfl
  · rw [hmain]
    unfold sampleCountAt
    rw [writeContentCell_media_self]
    rfl


/-- Witness for the amended C9 at the concrete failing observation. -/
theorem snoop_flatten_error_propagates_after_increment_witness :
    (snoopOnResponse c9Opts none c9Doc c9Obs 0).2 =
      some (.flattenMerge "Type undefined Not yet supported by flattening operation")
    ∧ (snoopOnResponse c9Opts none c9Doc c9Obs 0).1.schemas = c9Doc.schemas
    ∧ (snoopOnResponse c9Opts none c9Doc c9Obs 0).1.parameters = c9Doc.parameters
    ∧ sampleCountAt (snoopOnResponse c9Opts none c9Doc c9Obs 0).1 c9Obs.path
        (jsToLower c9Obs.method) c9Obs.status (effectiveContentType c9Obs) = some (1 + 1) :=
  snoop_flatten_error_propagates_after_increment c9Opts none c9Doc c9Obs 0 c9PathItem c9Op
    [(200, c9Entry)] c9Entry [("application/json", c9Media)] c9Media
    { target := .ref "#/components/schemas/X", sampleCount := some 1 }
    "#/components/schemas/X" c9Stored c9Stored c9Inferred (.obj [("p", .bool true)]) 1
    "Type undefined Not yet supported by flattening operation"
    rfl (by decide) rfl rfl rfl rfl rfl rfl rfl rfl rfl rfl rfl rfl rfl rfl rfl rfl

